import Mathlib

/-!
Verification of the profiling and validation engine of the data-profiling
repository (files `notebooks/dataset_profile.py`, `notebook/column_profile.py`,
`notebook/utils.py`).

The pandas data model is shallowly embedded as follows.

* A cell of a table is either a numeric value (modelled over `ℚ`; a Python
  float that `pd.to_numeric(..., errors='coerce')` would keep), a missing
  value (`NaN` — note that in pandas a missing cell of a numeric column is a
  float, so it passes an `isinstance(x, (int, float))` filter), or a
  non-numeric text value (which `to_numeric` coerces to `NaN`).
* A `DataFrame` is a `Table`: a column-axis name (`ds.columns.name`), a row
  index (dates modelled as integers — a linearly ordered, computable stand-in
  for timestamps), a flag recording whether the index is a `DatetimeIndex`,
  and a list of named, dtype-tagged columns.  Real frames are rectangular, so
  cells of row `i` are read with `getD i Cell.nan`, which coincides with the
  Python behaviour on every actual frame.
* A `pd.Series` is a name, an index and a list of cells.
* The metadata dictionary is a record of the fields the profiler reads.
* Calendar arithmetic, frequency inference (`pd.infer_freq`), the country
  registry and pandas memory accounting are external, deterministic services;
  they are passed in as an explicit `Env` of plain functions.
-/

/-- A single cell of a pandas frame. -/
inductive Cell
  | num (q : ℚ)
  | nan
  | txt (s : String)
deriving DecidableEq

/-- pandas dtype of a column, restricted to the kinds the profiler
distinguishes: numeric dtypes, `object` dtype (which
`pandas.api.types.is_string_dtype` reports as string-like), and
`datetime64` (neither numeric- nor string-typed). -/
inductive Dtype
  | numeric
  | object
  | datetime64
deriving DecidableEq

/-- A named column of a frame together with its dtype. -/
structure Column where
  name : String
  dtype : Dtype
  cells : List Cell
deriving DecidableEq

/-- A pandas `DataFrame`: column-axis name, row index (dates as integers),
whether the index is a `DatetimeIndex`, and the columns. -/
structure Table where
  colAxisName : String
  isDatetime : Bool
  index : List ℤ
  cols : List Column
deriving DecidableEq

/-- A pandas `Series` (one column handed to the column profiler). -/
structure Series where
  name : String
  index : List ℤ
  cells : List Cell
deriving DecidableEq

/-- The metadata dictionary, restricted to the keys the profiler reads.
`quelle = none` models a non-string "Quelle" entry (its substring test then
raises `TypeError`, which `categorize_source` catches); `erstellungsdatum =
none` models an empty or `"N/A"` creation year. -/
structure Metadata where
  quelle : Option String
  erstellungsdatum : Option ℤ
  beschreibung : String
  herausgeber : String
  dateneinheit : String

/-- External deterministic services used by the profiler: the country
registry (`hdx.location.country.Country`, queried with `use_live=False`),
the Food Security Portal place-type table, `pd.infer_freq`, calendar
arithmetic (`relativedelta` and `pd.date_range` month counting) and pandas
memory accounting.  All are plain functions: fixed data, no hidden state. -/
structure Env where
  resolveIso : String → Option String
  placeType : String → Option String
  inRegion : ℕ → String → Bool
  inferFreq : List ℤ → Option String
  memoryBytes : Table → ℚ
  addYear : ℤ → ℤ
  addMonth : ℤ → ℤ
  addWeek : ℤ → ℤ
  year : ℤ → ℤ
  yearDate : ℤ → ℤ
  monthsBetween : ℤ → ℤ → ℕ

/-- `pd.to_numeric(x, errors='coerce')` on a single cell: numbers survive,
missing stays missing, text coerces to `NaN` (`none`). -/
def toNumericOpt : Cell → Option ℚ
  | Cell.num q => some q
  | Cell.nan => none
  | Cell.txt _ => none

/-- `pd.to_numeric(x, errors='coerce').fillna(0)` on a single cell. -/
def toNumFill0 (c : Cell) : ℚ :=
  (toNumericOpt c).getD 0

/-- The `MIN_UNITS` lookup table of `dataset_profile.py` (`dict.get`:
`none` when the unit has no entry). -/
def MIN_UNITS : String → Option ℚ := fun u =>
  if u = "Kilacalories/capita/day" then some 0
  else if u = "Metric Tons" then some 0
  else if u = "People (thousands)" then some 0
  else if u = "Per 1,000 live births" then some 0
  else if u = "Percent" then some 0
  else if u = "Population per sq. km" then some 0
  else if u = "U.S. Dollars/Kg" then some 0
  else none

/-- The `MAX_UNITS` lookup table of `dataset_profile.py`. -/
def MAX_UNITS : String → Option ℚ := fun u =>
  if u = "Kilacalories/capita/day" then some 6000
  else if u = "People (thousands)" then some 8000000000
  else if u = "Per 1,000 live births" then some 1000
  else if u = "Percent" then some 100
  else none

/-- Truthiness of the Python guard `str(bound)` in `check_units`:
`str(None)` is the nonempty string `"None"` and the decimal rendering of a
number is nonempty, so the guard is truthy for every possible bound.  (It
therefore never disables a bound; see `series_lt_any`/`series_ge_any` for
what actually happens with a missing bound.) -/
def str_truthy : Option ℚ → Bool
  | none => true
  | some _ => true

/-- `(series < bound).any()` where `bound` may be `None` (a missing
`dict.get`).  pandas compares a numeric series with a null scalar by
returning all-`False` (for every operator except `!=`), so a missing bound
yields no matches. -/
def series_lt_any (vals : List ℚ) : Option ℚ → Bool
  | some b => vals.any (fun v => decide (v < b))
  | none => false

/-- `(series >= bound).any()` where `bound` may be `None`; same null-scalar
comparison semantics as `series_lt_any`. -/
def series_ge_any (vals : List ℚ) : Option ℚ → Bool
  | some b => vals.any (fun v => decide (b ≤ v))
  | none => false

/-- Per-column contribution of `check_units`: the lower-bound test appends
the column name, then the upper-bound test appends it again (two independent
`if` statements, no deduplication). -/
def unit_col_violations (mn mx : Option ℚ) (c : Column) : List String :=
  let test := c.cells.map toNumFill0
  (if str_truthy mn && series_lt_any test mn then [c.name] else []) ++
  (if str_truthy mx && series_ge_any test mx then [c.name] else [])

/-- `check_units` of `dataset_profile.py`: look up the declared unit in the
min/max tables and collect, in column order, the names of columns whose
coerced values (non-numeric treated as 0) fall below the minimum or reach
the maximum. -/
def check_units (ds : Table) (ds_md : Metadata) : List String :=
  let mx := MAX_UNITS ds_md.dateneinheit
  let mn := MIN_UNITS ds_md.dateneinheit
  ds.cols.foldr (fun c acc => unit_col_violations mn mx c ++ acc) []

theorem str_truthy_eq_true (o : Option ℚ) : str_truthy o = true := by
  cases o <;> rfl

theorem series_lt_any_iff (vals : List ℚ) (o : Option ℚ) :
    series_lt_any vals o = true ↔ ∃ m, o = some m ∧ ∃ v ∈ vals, v < m := by
  cases o <;> simp [series_lt_any]

theorem series_ge_any_iff (vals : List ℚ) (o : Option ℚ) :
    series_ge_any vals o = true ↔ ∃ m, o = some m ∧ ∃ v ∈ vals, m ≤ v := by
  cases o <;> simp [series_ge_any]

theorem mem_check_units_aux (mn mx : Option ℚ) (c : String) :
    ∀ cols : List Column,
      c ∈ cols.foldr (fun col acc => unit_col_violations mn mx col ++ acc) [] ↔
        ∃ col ∈ cols, col.name = c ∧
          ((∃ m, mn = some m ∧ ∃ x ∈ col.cells, toNumFill0 x < m) ∨
           (∃ m, mx = some m ∧ ∃ x ∈ col.cells, m ≤ toNumFill0 x))
  | [] => by simp
  | col :: cols => by
    rw [List.foldr_cons, List.mem_append, mem_check_units_aux mn mx c cols]
    constructor
    · rintro (hmem | ⟨d, hd, hdc, hviol⟩)
      · refine ⟨col, List.mem_cons_self _ _, ?_⟩
        simp only [unit_col_violations, List.mem_append] at hmem
        rcases hmem with h | h
        · by_cases hg : str_truthy mn && series_lt_any (col.cells.map toNumFill0) mn
          · rw [if_pos hg] at h
            simp only [List.mem_singleton] at h
            subst h
            refine ⟨rfl, Or.inl ?_⟩
            rw [Bool.and_eq_true] at hg
            rcases (series_lt_any_iff _ _).mp hg.2 with ⟨m, hm, v, hv, hlt⟩
            rcases List.mem_map.mp hv with ⟨x, hx, rfl⟩
            exact ⟨m, hm, x, hx, hlt⟩
          · rw [if_neg hg] at h
            exact absurd h (List.not_mem_nil c)
        · by_cases hg : str_truthy mx && series_ge_any (col.cells.map toNumFill0) mx
          · rw [if_pos hg] at h
            simp only [List.mem_singleton] at h
            subst h
            refine ⟨rfl, Or.inr ?_⟩
            rw [Bool.and_eq_true] at hg
            rcases (series_ge_any_iff _ _).mp hg.2 with ⟨m, hm, v, hv, hle⟩
            rcases List.mem_map.mp hv with ⟨x, hx, rfl⟩
            exact ⟨m, hm, x, hx, hle⟩
          · rw [if_neg hg] at h
            exact absurd h (List.not_mem_nil c)
      · exact ⟨d, List.mem_cons_of_mem _ hd, hdc, hviol⟩
    · rintro ⟨d, hd, hdc, hviol⟩
      rcases List.mem_cons.mp hd with rfl | hd
      · left
        simp only [unit_col_violations, List.mem_append]
        rcases hviol with ⟨m, hm, x, hx, hlt⟩ | ⟨m, hm, x, hx, hle⟩
        · left
          have hg : series_lt_any (d.cells.map toNumFill0) mn = true :=
            (series_lt_any_iff _ _).mpr ⟨m, hm, toNumFill0 x, List.mem_map_of_mem _ hx, hlt⟩
          rw [str_truthy_eq_true, hg]
          simp [hdc]
        · right
          have hg : series_ge_any (d.cells.map toNumFill0) mx = true :=
            (series_ge_any_iff _ _).mpr ⟨m, hm, toNumFill0 x, List.mem_map_of_mem _ hx, hle⟩
          rw [str_truthy_eq_true, hg]
          simp [hdc]
      · exact Or.inr ⟨d, hd, hdc, hviol⟩

/-- C2: a column name is in the unit-range violation list exactly when some
column of that name has a coerced value (non-numeric treated as 0) strictly
below the unit's known minimum or at least the unit's known maximum; a unit
missing from the minimum (resp. maximum) table contributes no violations
from that side, because pandas compares a series against the `None` bound
as all-`False`. -/
theorem check_units_mem_iff (ds : Table) (ds_md : Metadata) (c : String) :
    c ∈ check_units ds ds_md ↔
      ∃ col ∈ ds.cols, col.name = c ∧
        ((∃ m, MIN_UNITS ds_md.dateneinheit = some m ∧
            ∃ x ∈ col.cells, toNumFill0 x < m) ∨
         (∃ m, MAX_UNITS ds_md.dateneinheit = some m ∧
            ∃ x ∈ col.cells, m ≤ toNumFill0 x)) := by
  exact mem_check_units_aux _ _ c ds.cols

theorem count_check_units_aux (mn mx : Option ℚ) (col : Column)
    (hl : ∃ m, mn = some m ∧ ∃ x ∈ col.cells, toNumFill0 x < m)
    (hu : ∃ m, mx = some m ∧ ∃ x ∈ col.cells, m ≤ toNumFill0 x) :
    ∀ cols : List Column, col ∈ cols →
      2 ≤ (cols.foldr (fun d acc => unit_col_violations mn mx d ++ acc) []).count col.name
  | [], h => absurd h (List.not_mem_nil col)
  | d :: cols, h => by
    rw [List.foldr_cons, List.count_append]
    rcases List.mem_cons.mp h with rfl | h
    · have h1 : series_lt_any (col.cells.map toNumFill0) mn = true := by
        rcases hl with ⟨m, hm, x, hx, hlt⟩
        exact (series_lt_any_iff _ _).mpr ⟨m, hm, toNumFill0 x, List.mem_map_of_mem _ hx, hlt⟩
      have h2 : series_ge_any (col.cells.map toNumFill0) mx = true := by
        rcases hu with ⟨m, hm, x, hx, hle⟩
        exact (series_ge_any_iff _ _).mpr ⟨m, hm, toNumFill0 x, List.mem_map_of_mem _ hx, hle⟩
      have : unit_col_violations mn mx col = [col.name, col.name] := by
        simp [unit_col_violations, str_truthy_eq_true, h1, h2]
      rw [this]
      simp
    · have := count_check_units_aux mn mx col hl hu cols h
      omega

/-- C9: a column whose coerced values break both the lower and the upper
bound of the declared unit is appended to the violation list once by each of
the two independent bound checks, so its name occurs at least twice in the
result of `check_units`. -/
theorem check_units_counts_both_bounds (ds : Table) (ds_md : Metadata) (col : Column)
    (hcol : col ∈ ds.cols)
    (hl : ∃ m, MIN_UNITS ds_md.dateneinheit = some m ∧ ∃ x ∈ col.cells, toNumFill0 x < m)
    (hu : ∃ m, MAX_UNITS ds_md.dateneinheit = some m ∧ ∃ x ∈ col.cells, m ≤ toNumFill0 x) :
    2 ≤ (check_units ds ds_md).count col.name :=
  count_check_units_aux _ _ col hl hu ds.cols hcol

/-- A one-column table whose column "A" contains both a negative value and
the value 150, profiled with unit "Percent" (bounds [0, 100)). -/
def percentCol : Column := ⟨"A", Dtype.numeric, [Cell.num (-5), Cell.num 150]⟩

/-- Concrete table for the duplicate-violation witness. -/
def percentTable : Table := ⟨"Country", false, [0, 1], [percentCol]⟩

/-- Metadata declaring the unit "Percent". -/
def percentMd : Metadata := ⟨some "FAO", none, "", "FAO", "Percent"⟩

theorem check_units_counts_both_bounds_witness :
    2 ≤ (check_units percentTable percentMd).count percentCol.name :=
  check_units_counts_both_bounds percentTable percentMd percentCol
    (by decide)
    ⟨0, by decide, Cell.num (-5), by decide, by norm_num [toNumFill0, toNumericOpt]⟩
    ⟨100, by decide, Cell.num 150, by decide, by norm_num [toNumFill0, toNumericOpt]⟩

/-- An entry of the aggregation-violation list: either a row-index label or
the literal marker string `"alle Zeilen"` ("all rows"). -/
inductive AggEntry
  | idx (i : ℤ)
  | marker (s : String)
deriving DecidableEq

/-- pandas `Series.sum()`: missing values are skipped, the empty sum is 0. -/
def pySum (vals : List (Option ℚ)) : ℚ :=
  (vals.filterMap id).sum

/-- pandas `Series.mean()`: mean of the non-missing values, `NaN` (`none`)
when there are none. -/
def pyMean (vals : List (Option ℚ)) : Option ℚ :=
  let nums := vals.filterMap id
  if nums.length = 0 then none else some (nums.sum / nums.length)

/-- Row `i` of a table after `pd.to_numeric(row, errors='coerce')`:
the cell of each column, paired with the column name. -/
def row_cells (ds : Table) (i : ℕ) : List (String × Option ℚ) :=
  ds.cols.map (fun c => (c.name, toNumericOpt (c.cells.getD i Cell.nan)))

/-- The per-row test of `check_aggregation`, exactly as written in the
source: the mean and sum of the non-"World" entries and the sum of the
"World" entries are computed, and the resulting boolean is wrapped in a
Python *list literal* — `if [mean != world or sum != world]:`.  The value of
this expression is a one-element list, which is truthy regardless of the
boolean inside. -/
def agg_row_violation_test (ds : Table) (i : ℕ) : List Bool :=
  let row := row_cells ds i
  let others := (row.filter (fun p => p.1 ≠ "World")).map Prod.snd
  let all_countries_mean := pyMean others
  let all_countries_sum := pySum others
  let world := pySum ((row.filter (fun p => p.1 = "World")).map Prod.snd)
  [decide (all_countries_mean ≠ some world) || decide (all_countries_sum ≠ world)]

/-- `check_aggregation` of `dataset_profile.py`: when a "World" column exists
alongside at least one other column and the geographic scope contains
"Welt", iterate over the rows, appending a row's index label whenever the
(always-truthy) list-literal test fires, and collapse the list to the
marker `["alle Zeilen"]` as soon as its length reaches the row count. -/
def check_aggregation (ds : Table) (geo : List String) : List AggEntry :=
  if "World" ∈ ds.cols.map Column.name ∧ 1 < ds.cols.length then
    if "Welt" ∈ geo then
      (List.range ds.index.length).foldl (fun acc i =>
        let acc2 := if agg_row_violation_test ds i ≠ [] then
            acc ++ [AggEntry.idx (ds.index.getD i 0)]
          else acc
        if acc2.length = ds.index.length then [AggEntry.marker "alle Zeilen"] else acc2) []
    else []
  else []

/-- A dataset with columns [World, A, B] and a single row in which
World = A + B holds (3 = 1 + 2): the aggregation is consistent, so per the
specification its violation list should be empty. -/
def aggConsistentTable : Table :=
  ⟨"Country", true, [2000],
   [⟨"World", Dtype.numeric, [Cell.num 3]⟩,
    ⟨"A", Dtype.numeric, [Cell.num 1]⟩,
    ⟨"B", Dtype.numeric, [Cell.num 2]⟩]⟩

/-- C1: evaluating `check_aggregation` on a dataset whose "World" column is
exactly the sum of the others still yields the all-rows violation marker.
The row test `if [mean != world or sum != world]:` wraps the comparison in a
one-element list, and a non-empty list is always truthy in Python, so every
row is appended and the list collapses to `["alle Zeilen"]` — contradicting
both the specification's scenario (empty list) and the function's own
docstring ("a list of years in which the aggregation doesn't add up"). -/
theorem check_aggregation_flags_consistent_data :
    check_aggregation aggConsistentTable ["Welt"] = [AggEntry.marker "alle Zeilen"] := by
  decide

/-- `dc.isna().sum()` after the numeric coercion at the top of
`describe_dc_as_dataframe`. -/
def null_values_count (dc : Series) : ℕ :=
  (dc.cells.map toNumericOpt).countP (fun o => o.isNone)

/-- The missing-value percentage row of the column profile:
`(null_values / len(dc)) * 100`. -/
def missing_pct (dc : Series) : ℚ :=
  (null_values_count dc : ℚ) / (dc.cells.length : ℚ) * 100

/-- The distinct-value percentage row of the column profile:
`len(dc.dropna().unique()) / len(dc) * 100` — distinct non-missing values
over the total row count. -/
def unique_pct (dc : Series) : ℚ :=
  (((dc.cells.map toNumericOpt).filterMap id).dedup.length : ℚ)
    / (dc.cells.length : ℚ) * 100

/-- `dc.value_counts(normalize=True).max()`: the largest relative frequency
among the non-missing values, each frequency being its count divided by the
number of non-missing values; `NaN` (`none`) when every value is missing. -/
def value_counts_max (nums : List ℚ) : Option ℚ :=
  match nums.dedup with
  | [] => none
  | v :: vs =>
      some (vs.foldl (fun m x => max m ((nums.count x : ℚ) / (nums.length : ℚ)))
        ((nums.count v : ℚ) / (nums.length : ℚ)))

/-- The constancy row of the column profile: `constancy * 100` with
`constancy = dc.value_counts(normalize=True).max()`. -/
def constancy_pct (dc : Series) : Option ℚ :=
  (value_counts_max ((dc.cells.map toNumericOpt).filterMap id)).map (fun q => q * 100)

/-- The four-row column [10, 20, 20, missing] of the specification's
scenario. -/
def scenarioCol : Series :=
  ⟨"c", [2000, 2001, 2002, 2003], [Cell.num 10, Cell.num 20, Cell.num 20, Cell.nan]⟩

/-- C3 (counterexample): on the column [10, 20, 20, missing] the profile's
constancy percentage is 200/3 ≈ 66.67, not the 50.0 the claim states:
`value_counts(normalize=True)` divides the modal count 2 by the *non-missing*
count 3, not by the row count 4. -/
theorem constancy_scenario_not_fifty :
    constancy_pct scenarioCol = some (200 / 3) ∧ constancy_pct scenarioCol ≠ some 50 := by
  have h : constancy_pct scenarioCol = some (200 / 3) := by
    simp [constancy_pct, scenarioCol, toNumericOpt, value_counts_max]
    norm_num
  refine ⟨h, ?_⟩
  rw [h]
  intro hcontra
  rw [Option.some_inj] at hcontra
  norm_num at hcontra

/-- C3 (amended): on the column [10, 20, 20, missing] over 4 rows the
profile reports missing percentage 25.0 and distinct-value percentage 50.0
as claimed, while the constancy percentage — the frequency share of the mode
among non-missing values, per the §4.2 formula — is 2/3 × 100 = 200/3. -/
theorem scenario_column_profile_values :
    missing_pct scenarioCol = 25 ∧ unique_pct scenarioCol = 50 ∧
      constancy_pct scenarioCol = some (200 / 3) := by
  refine ⟨?_, ?_, ?_⟩
  · simp [missing_pct, null_values_count, scenarioCol, toNumericOpt]
    norm_num
  · simp [unique_pct, scenarioCol, toNumericOpt]
    norm_num
  · simp [constancy_pct, scenarioCol, toNumericOpt, value_counts_max]
    norm_num

/-- Row `i` of `ds.values`: one cell per column, in column order. -/
def row_values (ds : Table) (i : ℕ) : List Cell :=
  ds.cols.map (fun c => c.cells.getD i Cell.nan)

/-- `ds.values.flatten()`: all cells in row-major order. -/
def flatten_values (ds : Table) : List Cell :=
  ((List.range ds.index.length).map (row_values ds)).flatten

/-- The `isinstance(i, (int, float))` filter of `utils.list_of_numbers_in_ds`:
numbers pass, and so does `NaN` (a missing cell of a numeric column is a
Python float), while text does not. -/
def is_pynum : Cell → Bool
  | Cell.num _ => true
  | Cell.nan => true
  | Cell.txt _ => false

/-- `utils.list_of_numbers_in_ds`: the flattened cells restricted to numeric
(int/float) entries. -/
def list_of_numbers_in_ds (ds : Table) : List Cell :=
  (flatten_values ds).filter is_pynum

/-- Number of missing cells in the flattened table. -/
def nan_cell_count (ds : Table) : ℕ :=
  (flatten_values ds).countP (fun c => decide (c = Cell.nan))

/-- `get_null_values_pct` of `dataset_profile.py`: on a non-empty frame
(`ds.empty` is true when either axis has length 0), count the `NaN` entries
of the numeric flattened cells, divide by the total flattened cell count,
and return the percentage — but only when the ratio is truthy, i.e. nonzero
(`if null_vals_percent:`); otherwise fall through and return `None`. -/
def get_null_values_pct (ds : Table) : Option ℚ :=
  if ¬(ds.index.length = 0 ∨ ds.cols.length = 0) then
    if (((list_of_numbers_in_ds ds).countP (fun c => decide (c = Cell.nan)) : ℚ)
          / ((flatten_values ds).length : ℚ)) ≠ 0 then
      some ((((list_of_numbers_in_ds ds).countP (fun c => decide (c = Cell.nan)) : ℚ)
          / ((flatten_values ds).length : ℚ)) * 100)
    else none
  else none

theorem length_flatten_values (ds : Table) :
    (flatten_values ds).length = ds.index.length * ds.cols.length := by
  rw [flatten_values, List.length_flatten, List.map_map]
  have h1 : (List.range ds.index.length).map (List.length ∘ row_values ds) =
      (List.range ds.index.length).map (Function.const ℕ ds.cols.length) := by
    refine List.map_congr_left (fun i _ => ?_)
    simp [row_values, Function.const]
  rw [h1, List.map_const, List.sum_replicate, List.length_range, smul_eq_mul]

theorem countP_nan_filtered (ds : Table) :
    (list_of_numbers_in_ds ds).countP (fun c => decide (c = Cell.nan)) =
      nan_cell_count ds := by
  rw [list_of_numbers_in_ds, nan_cell_count, List.countP_filter]
  refine List.countP_congr (fun c _ => ?_)
  cases c <;> simp [is_pynum]

/-- C4 (amended): the dataset-level missing-value percentage is present in
the report exactly when the table is non-empty on both axes *and* at least
one numeric cell is missing — a non-empty table with no missing values also
gets no percentage, because the result is only returned when the computed
ratio is truthy.  When present, the value is (missing cells / (rows ×
columns)) × 100. -/
theorem get_null_values_pct_eq_some_iff (ds : Table) (p : ℚ) :
    get_null_values_pct ds = some p ↔
      0 < ds.index.length ∧ 0 < ds.cols.length ∧ 0 < nan_cell_count ds ∧
        p = (nan_cell_count ds : ℚ)
          / ((ds.index.length : ℚ) * (ds.cols.length : ℚ)) * 100 := by
  rw [get_null_values_pct, countP_nan_filtered]
  by_cases hE : ds.index.length = 0 ∨ ds.cols.length = 0
  · rw [if_neg (not_not_intro hE)]
    constructor
    · intro h
      exact Option.noConfusion h
    · rintro ⟨h1, h2, -, -⟩
      rcases hE with h | h <;> omega
  · rw [if_pos hE]
    push_neg at hE
    obtain ⟨hr, hc⟩ := hE
    have hr' : 0 < ds.index.length := Nat.pos_of_ne_zero hr
    have hc' : 0 < ds.cols.length := Nat.pos_of_ne_zero hc
    have htot : ((flatten_values ds).length : ℚ) =
        (ds.index.length : ℚ) * (ds.cols.length : ℚ) := by
      rw [length_flatten_values]; push_cast; ring
    have htot0 : ((flatten_values ds).length : ℚ) ≠ 0 := by
      rw [htot]
      positivity
    by_cases hn : nan_cell_count ds = 0
    · have : ((nan_cell_count ds : ℚ) / ((flatten_values ds).length : ℚ)) = 0 := by
        rw [hn]; simp
      rw [if_neg (not_not_intro this)]
      constructor
      · intro h
        exact Option.noConfusion h
      · rintro ⟨-, -, h3, -⟩
        omega
    · have hnq : ((nan_cell_count ds : ℚ)) ≠ 0 := by
        exact_mod_cast hn
      have hne : ((nan_cell_count ds : ℚ) / ((flatten_values ds).length : ℚ)) ≠ 0 :=
        div_ne_zero hnq htot0
      rw [if_pos hne, htot]
      constructor
      · intro h
        refine ⟨hr', hc', Nat.pos_of_ne_zero hn, ?_⟩
        exact (Option.some_inj.mp h).symm
      · rintro ⟨-, -, -, hp⟩
        rw [hp]

/-- A 1×1 table with a single present numeric value: non-empty, nothing
missing. -/
def oneCellTable : Table := ⟨"", false, [0], [⟨"A", Dtype.numeric, [Cell.num 1]⟩]⟩

/-- C4 (counterexample): a non-empty table with no missing cells gets *no*
missing-value percentage (the report entry is `None`), refuting the claim
that the percentage is defined for every non-empty table and undefined only
when the table is empty. -/
theorem null_pct_undefined_on_complete_table :
    oneCellTable.index.length ≠ 0 ∧ oneCellTable.cols.length ≠ 0 ∧
      get_null_values_pct oneCellTable = none := by
  refine ⟨by decide, by decide, ?_⟩
  rw [get_null_values_pct, if_pos (by decide)]
  have hc : (list_of_numbers_in_ds oneCellTable).countP (fun c => decide (c = Cell.nan)) = 0 :=
    rfl
  rw [hc]
  norm_num

/-- `get_duplicated_columns` of `dataset_profile.py`: drop columns that are
entirely missing (`dropna(axis=1, how="all")`), then — only when the row
count `len(ds)` is positive (dropping columns never changes the row count) —
mark every remaining column whose cell sequence occurs more than once
(`ds.T.duplicated(keep=False)`; pandas hashing treats `NaN` entries of equal
position as equal) and return their names in column order.  With zero rows
the function logs and implicitly returns `None`. -/
def get_duplicated_columns (ds : Table) : Option (List String) :=
  if 0 < ds.index.length then
    some
      (((ds.cols.filter (fun c => !(c.cells.all (fun x => decide (x = Cell.nan))))).filter
          (fun c =>
            1 < (ds.cols.filter
                (fun d => !(d.cells.all (fun x => decide (x = Cell.nan))))).countP
              (fun d => decide (d.cells = c.cells)))).map Column.name)
  else none

/-- C10: the duplicated-columns criterion yields no list at all (`None`)
exactly when the table has zero rows; in particular a (non-empty) list can
only be returned when at least one row remains. -/
theorem get_duplicated_columns_none_iff (ds : Table) :
    get_duplicated_columns ds = none ↔ ds.index.length = 0 := by
  rw [get_duplicated_columns]
  by_cases h : 0 < ds.index.length
  · rw [if_pos h]
    constructor
    · intro hc
      exact Option.noConfusion hc
    · intro hc
      omega
  · rw [if_neg h]
    constructor
    · intro _
      omega
    · intro _
      rfl

/-- `pandas.api.types.is_numeric_dtype`. -/
def is_numeric_dtype : Dtype → Bool
  | Dtype.numeric => true
  | _ => false

/-- `pandas.api.types.is_string_dtype`: true for `object` dtype (kind `O`),
false for numeric and datetime dtypes. -/
def is_string_dtype : Dtype → Bool
  | Dtype.object => true
  | _ => false

/-- `Series.nunique()`: the number of distinct non-missing values. -/
def nunique (c : Column) : ℕ :=
  (c.cells.filter (fun x => !(decide (x = Cell.nan)))).dedup.length

/-- The per-type column counts of the dataset profile, in the dictionary
order of the source: NUM, STRING, CONST. -/
structure DTypes where
  num : ℕ
  string : ℕ
  const : ℕ
deriving DecidableEq

/-- `get_data_types` of `dataset_profile.py`: walk the columns; a column
with zero distinct values counts as constant, else a numeric-typed column
as numeric, else a string-typed column as textual — and a column matching
none of the three tests (e.g. a datetime-typed column) is not counted at
all. -/
def get_data_types (ds : Table) : DTypes :=
  ds.cols.foldl (fun acc c =>
    if nunique c = 0 then { acc with const := acc.const + 1 }
    else if is_numeric_dtype c.dtype then { acc with num := acc.num + 1 }
    else if is_string_dtype c.dtype then { acc with string := acc.string + 1 }
    else acc) ⟨0, 0, 0⟩

/-- Predicate for a column counted as numeric by `get_data_types`. -/
def counted_num (c : Column) : Bool :=
  !(decide (nunique c = 0)) && is_numeric_dtype c.dtype

/-- Predicate for a column counted as textual by `get_data_types`. -/
def counted_string (c : Column) : Bool :=
  !(decide (nunique c = 0)) && !(is_numeric_dtype c.dtype) && is_string_dtype c.dtype

/-- Predicate for a column counted as constant by `get_data_types`. -/
def counted_const (c : Column) : Bool :=
  decide (nunique c = 0)

theorem get_data_types_fold (cols : List Column) :
    ∀ acc : DTypes,
      cols.foldl (fun acc c =>
        if nunique c = 0 then { acc with const := acc.const + 1 }
        else if is_numeric_dtype c.dtype then { acc with num := acc.num + 1 }
        else if is_string_dtype c.dtype then { acc with string := acc.string + 1 }
        else acc) acc =
      ⟨acc.num + cols.countP counted_num, acc.string + cols.countP counted_string,
        acc.const + cols.countP counted_const⟩ := by
  induction cols with
  | nil => intro acc; simp
  | cons c cols ih =>
      intro acc
      rw [List.foldl_cons, List.countP_cons, List.countP_cons, List.countP_cons]
      by_cases h0 : nunique c = 0
      · rw [if_pos h0, ih]
        simp [counted_num, counted_string, counted_const, h0]
        omega
      · rw [if_neg h0]
        by_cases h1 : is_numeric_dtype c.dtype
        · rw [if_pos h1, ih]
          simp [counted_num, counted_string, counted_const, h0, h1]
          omega
        · rw [if_neg h1]
          by_cases h2 : is_string_dtype c.dtype
          · rw [if_pos h2, ih]
            simp [counted_num, counted_string, counted_const, h0, h1, h2]
            omega
          · rw [if_neg h2, ih]
            simp [counted_num, counted_string, counted_const, h0, h1, h2]

/-- C7 (amended): the three per-type counts are exactly the number of
columns matching each first-match rule (constant checked first, then
numeric, then textual), each column is counted at most once, and the three
counts sum to at most the number of columns — with a strict gap whenever
some column (e.g. a datetime-typed one) matches none of the rules. -/
theorem get_data_types_partition_le (ds : Table) :
    (get_data_types ds).num = ds.cols.countP counted_num ∧
    (get_data_types ds).string = ds.cols.countP counted_string ∧
    (get_data_types ds).const = ds.cols.countP counted_const ∧
    (get_data_types ds).num + (get_data_types ds).string + (get_data_types ds).const ≤
      ds.cols.length := by
  have h := get_data_types_fold ds.cols ⟨0, 0, 0⟩
  rw [get_data_types, h]
  refine ⟨by simp, by simp, by simp, ?_⟩
  simp only [Nat.zero_add]
  induction ds.cols with
  | nil => simp
  | cons c cols ih =>
      rw [List.countP_cons, List.countP_cons, List.countP_cons, List.length_cons]
      have : (if counted_num c then 1 else 0) + (if counted_string c then 1 else 0)
          + (if counted_const c then 1 else 0) ≤ 1 := by
        by_cases h0 : nunique c = 0 <;>
          by_cases h1 : is_numeric_dtype c.dtype <;>
            simp [counted_num, counted_string, counted_const, h0, h1] <;>
              split <;> omega
      omega

/-- A table with a single datetime-typed column holding a present value. -/
def dtTable : Table :=
  ⟨"Country", true, [0], [⟨"D", Dtype.datetime64, [Cell.txt "2000-01-01"]⟩]⟩

/-- C7 (counterexample): a table whose only column is datetime-typed (one
present value, so not constant; neither numeric- nor string-typed) is
counted in none of the three buckets, so the counts sum to 0 while the
table has 1 column — the counts do not partition the columns. -/
theorem data_types_not_partition :
    (get_data_types dtTable).num + (get_data_types dtTable).string +
        (get_data_types dtTable).const = 0 ∧
      dtTable.cols.length = 1 := by
  constructor <;> rfl

/-- The while-loop of `check_is_consecutive` (`column_profile.py`).  The
Python loop pops dates off the end of the present-date list `col` and walks
towards its beginning; `walk` receives the *reversed* list (most recent
date first) and processes it head-first, which is the same traversal.  At
each step `d2` is the popped date and `next` the new last element; when
`next + delta != d2` (here: `step next ≠ d2`) the current run is closed as
the pair `(d2, start)` and `start` is reset to `next`.  The loop stops when
one element remains.  The function returns the emitted pairs in emission
order together with the final value of `start`. -/
def walk (step : ℤ → ℤ) : List ℤ → ℤ → List (ℤ × ℤ) × ℤ
  | d2 :: next :: rest, start =>
    if step next = d2 then walk step (next :: rest) start
    else ((d2, start) :: (walk step (next :: rest) next).1,
          (walk step (next :: rest) next).2)
  | _, start => ([], start)

/-- `check_is_consecutive` of `column_profile.py`, with the date arithmetic
`col[-1] + delta` abstracted as `step` and the truthiness of
`pd.infer_freq(dc.index)` as `hasFreq`.  `col` is the list of index dates
with present values (`list(dc.dropna().index)`), in index order.  The
rendering of each interval as the string `"start - end"` is elided: an
interval is kept as its pair of dates.  An empty `col` makes `col[-1]`
raise `IndexError`, which the bare `except` swallows with the accumulator
still empty, so the result is `[]`.  With at most two present dates, or no
inferable frequency, the single pair `(col[0], col[-1])` is emitted;
otherwise the closed runs are emitted (most recent first), the final open
run `(col[0], start)` is appended, and the list is reversed to
chronological order. -/
def check_is_consecutive (step : ℤ → ℤ) (hasFreq : Bool) (col : List ℤ) : List (ℤ × ℤ) :=
  match col with
  | [] => []
  | c :: cs =>
    if 2 < (c :: cs).length ∧ hasFreq = true then
      ((walk step (c :: cs).reverse ((c :: cs).getLast (List.cons_ne_nil c cs))).1 ++
        [(c, (walk step (c :: cs).reverse ((c :: cs).getLast (List.cons_ne_nil c cs))).2)]).reverse
    else
      [(c, (c :: cs).getLast (List.cons_ne_nil c cs))]

theorem walk_spec (step : ℤ → ℤ) :
    ∀ (r : List ℤ) (start : ℤ),
      List.Chain' (fun a b : ℤ => b < a) r →
      (∀ x, r.head? = some x → x ≤ start) →
      (∀ p ∈ (walk step r start).1,
          p.1 ≤ p.2 ∧ p.2 ≤ start ∧ (walk step r start).2 < p.1) ∧
      List.Pairwise (fun p q : ℤ × ℤ => q.2 < p.1) (walk step r start).1 ∧
      (walk step r start).2 ≤ start ∧
      (∀ m, r.getLast? = some m → m ≤ (walk step r start).2) := by
  intro r
  induction r with
  | nil =>
      intro start _ _
      exact ⟨fun p hp => absurd hp (List.not_mem_nil p), List.Pairwise.nil,
        le_refl start, fun m hm => Option.noConfusion hm⟩
  | cons d2 r ih =>
      intro start hchain hstart
      cases r with
      | nil =>
          refine ⟨fun p hp => absurd hp (List.not_mem_nil p), List.Pairwise.nil,
            le_refl start, fun m hm => ?_⟩
          have hm' : d2 = m := Option.some_inj.mp hm
          exact hm' ▸ hstart d2 rfl
      | cons next rest =>
          have hlt : next < d2 := (List.chain'_cons.mp hchain).1
          have hchain' : List.Chain' (fun a b : ℤ => b < a) (next :: rest) :=
            (List.chain'_cons.mp hchain).2
          have hd2 : d2 ≤ start := hstart d2 rfl
          by_cases heq : step next = d2
          · have IH := ih start hchain' (fun x hx => by
              have hx' : next = x := Option.some_inj.mp hx
              omega)
            obtain ⟨IHmem, IHpair, IHle, IHlast⟩ := IH
            simp only [walk, if_pos heq]
            refine ⟨IHmem, IHpair, IHle, fun m hm => ?_⟩
            rw [List.getLast?_cons_cons] at hm
            exact IHlast m hm
          · have IH := ih next hchain' (fun x hx => by
              have hx' : next = x := Option.some_inj.mp hx
              omega)
            obtain ⟨IHmem, IHpair, IHle, IHlast⟩ := IH
            simp only [walk, if_neg heq]
            refine ⟨?_, ?_, ?_, ?_⟩
            · intro p hp
              rcases List.mem_cons.mp hp with rfl | hp
              · exact ⟨hd2, le_refl start, lt_of_le_of_lt IHle hlt⟩
              · obtain ⟨h1, h2, h3⟩ := IHmem p hp
                exact ⟨h1, by omega, h3⟩
            · rw [List.pairwise_cons]
              refine ⟨fun q hq => ?_, IHpair⟩
              obtain ⟨-, h2, -⟩ := IHmem q hq
              omega
            · omega
            · intro m hm
              rw [List.getLast?_cons_cons] at hm
              exact IHlast m hm

theorem sorted_head_le_getLast (c : ℤ) (cs : List ℤ)
    (h : List.Sorted (fun a b : ℤ => a < b) (c :: cs)) :
    c ≤ (c :: cs).getLast (List.cons_ne_nil c cs) := by
  have hmem := List.getLast_mem (List.cons_ne_nil c cs)
  rcases List.mem_cons.mp hmem with heq | hmem'
  · exact le_of_eq heq.symm
  · exact le_of_lt (List.rel_of_sorted_cons h _ hmem')

/-- C5: on a valid (strictly increasing) list of present dates, the
intervals produced by the interval detector each have their start at or
before their end (equality exactly for single-date runs), and the list is
chronologically ascending and pairwise non-overlapping: every interval ends
strictly before any later interval starts. -/
theorem check_is_consecutive_chron (step : ℤ → ℤ) (hf : Bool) (col : List ℤ)
    (hsorted : List.Sorted (fun a b : ℤ => a < b) col) :
    (∀ p ∈ check_is_consecutive step hf col, p.1 ≤ p.2) ∧
      List.Pairwise (fun p q : ℤ × ℤ => p.2 < q.1) (check_is_consecutive step hf col) := by
  cases col with
  | nil =>
      exact ⟨fun p hp => absurd hp (List.not_mem_nil p), List.Pairwise.nil⟩
  | cons c cs =>
      simp only [check_is_consecutive]
      by_cases hcond : 2 < (c :: cs).length ∧ hf = true
      · rw [if_pos hcond]
        have hpairrev : List.Pairwise (fun a b : ℤ => b < a) (c :: cs).reverse :=
          List.pairwise_reverse.mpr hsorted
        have hchain : List.Chain' (fun a b : ℤ => b < a) (c :: cs).reverse :=
          hpairrev.chain'
        have hstart : ∀ x, (c :: cs).reverse.head? = some x →
            x ≤ (c :: cs).getLast (List.cons_ne_nil c cs) := by
          intro x hx
          rw [List.head?_reverse, List.getLast?_eq_getLast _ (List.cons_ne_nil c cs)] at hx
          exact le_of_eq (Option.some_inj.mp hx).symm
        obtain ⟨hmem, hpair, hle, hlast⟩ :=
          walk_spec step (c :: cs).reverse ((c :: cs).getLast (List.cons_ne_nil c cs))
            hchain hstart
        have hcw : c ≤ (walk step (c :: cs).reverse
            ((c :: cs).getLast (List.cons_ne_nil c cs))).2 := by
          refine hlast c ?_
          rw [List.getLast?_reverse]
          rfl
        constructor
        · intro p hp
          rw [List.mem_reverse, List.mem_append] at hp
          rcases hp with hp | hp
          · exact (hmem p hp).1
          · rw [List.mem_singleton] at hp
            subst hp
            exact hcw
        · rw [List.pairwise_reverse, List.pairwise_append]
          refine ⟨hpair, List.pairwise_singleton _ _, fun p hp q hq => ?_⟩
          rw [List.mem_singleton] at hq
          subst hq
          exact (hmem p hp).2.2
      · rw [if_neg hcond]
        refine ⟨fun p hp => ?_, List.pairwise_singleton _ _⟩
        rw [List.mem_singleton] at hp
        subst hp
        exact sorted_head_le_getLast c cs hsorted

/-- Witness for C5 on the concrete present-date list [1, 2, 10, 11] with a
unit step: the detector yields ascending, disjoint intervals. -/
theorem check_is_consecutive_chron_witness :
    (∀ p ∈ check_is_consecutive (fun x => x + 1) true [1, 2, 10, 11], p.1 ≤ p.2) ∧
      List.Pairwise (fun p q : ℤ × ℤ => p.2 < q.1)
        (check_is_consecutive (fun x => x + 1) true [1, 2, 10, 11]) :=
  check_is_consecutive_chron (fun x => x + 1) true [1, 2, 10, 11] (by decide)

/-- C6: coverage detection is a total function that never propagates a
failure: with 0 present entries (where the Python `col[-1]` raises
`IndexError`, swallowed by the bare `except` with nothing accumulated) it
returns the empty list, and with 1 or 2 present entries it returns the
single interval spanning the minimum to the maximum present entry, without
any frequency arithmetic. -/
theorem check_is_consecutive_small (step : ℤ → ℤ) (hf : Bool) :
    check_is_consecutive step hf [] = [] ∧
      (∀ a : ℤ, check_is_consecutive step hf [a] = [(a, a)]) ∧
      (∀ a b : ℤ, a ≤ b → check_is_consecutive step hf [a, b] = [(a, b)]) :=
  ⟨rfl, fun _ => rfl, fun _ _ _ => rfl⟩

/-- Witness for C6 at concrete inputs: empty, singleton and two-entry
present-date lists. -/
theorem check_is_consecutive_small_witness :
    check_is_consecutive (fun x => x + 1) false [(3 : ℤ), 7] = [(3, 7)] :=
  (check_is_consecutive_small (fun x => x + 1) false).2.2 3 7 (by norm_num)

/-- Python's substring operator `pat in s` on the underlying character
lists: some suffix of the text starts with the pattern. -/
def py_substr (pat : List Char) : List Char → Bool
  | [] => pat.isPrefixOf ([] : List Char)
  | c :: t => pat.isPrefixOf (c :: t) || py_substr pat t

/-- Python's `pat in s` on strings. -/
def py_in (pat s : String) : Bool :=
  py_substr pat.toList s.toList

/-- The `igo` list of `categorize_source`. -/
def igo_list : List String :=
  ["FAO", "World Bank", "ILO", "United Nations", "International Monetary Fund"]

/-- The `go` list of `categorize_source`. -/
def go_list : List String := ["U.S. Energy Information Administration"]

/-- The `ngo` list of `categorize_source`. -/
def ngo_list : List String := ["UNICEF", "IFPRI"]

/-- The `company` list of `categorize_source`. -/
def company_list : List String := ["CBOT"]

/-- `categorize_source` of `dataset_profile.py`: substring-match the
metadata source against the four curated lists, in the source's check order
(intergovernmental, then NGO, then governmental, then company); a
non-string source raises `TypeError`, caught and mapped to "N/A". -/
def categorize_source (ds_md : Metadata) : String :=
  match ds_md.quelle with
  | none => "N/A"
  | some quelle =>
      if igo_list.any (fun x => py_in x quelle) then "Zwischenstaatliche Organisation"
      else if ngo_list.any (fun x => py_in x quelle) then "Nichtregierungsorganisation"
      else if go_list.any (fun x => py_in x quelle) then "Staatliche Organisation"
      else if company_list.any (fun x => py_in x quelle) then "Unternehmen"
      else "N/A"

/-- `fivestar_opendata` of `dataset_profile.py`: 4 when the publisher
mentions "World Bank", else 3. -/
def fivestar_opendata (ds_md : Metadata) : ℕ :=
  if py_in "World Bank" ds_md.herausgeber then 4 else 3

/-- The suffix-to-end-of-line extraction performed by the regular
expression `'%s([^\n]*)' % dc_name` in `column_metadata`: find the first
occurrence of the pattern and take the characters from there up to the next
line break (the pattern itself is assumed free of line breaks and regex
metacharacters, as the source implicitly does). -/
def line_from (pat : List Char) : List Char → Option (List Char)
  | [] => if pat.isPrefixOf ([] : List Char) then some [] else none
  | c :: t =>
      if pat.isPrefixOf (c :: t) then
        some ((c :: t).takeWhile (fun ch => !(decide (ch = Char.ofNat 10))))
      else line_from pat t

/-- `column_metadata` of `column_profile.py`: when the description is a
non-empty string containing the column name, return the description text
from the first occurrence of the name to the end of that line; otherwise
the empty string.  (The `none` fallback is unreachable under the guard.) -/
def column_metadata (dc_name : String) (ds_md : Metadata) : String :=
  if ds_md.beschreibung ≠ "" ∧ py_in dc_name ds_md.beschreibung = true then
    match line_from dc_name.toList ds_md.beschreibung.toList with
    | some cs => String.mk cs
    | none => ""
  else ""

/-- The per-header scan of `check_domain`: resolved headers contribute
their ISO code, unresolved headers land in the "not a country" list, with a
place-type annotation when the fallback registry knows one. -/
def domain_scan (env : Env) : List String → List String × List String
  | [] => ([], [])
  | n :: ns =>
      match env.resolveIso n, domain_scan env ns with
      | some iso, rest => (rest.1, iso :: rest.2)
      | none, rest =>
          match env.placeType n with
          | none => (n :: rest.1, rest.2)
          | some ty => ((n ++ " (Domain: " ++ ty ++ ")") :: rest.1, rest.2)

/-- `check_domain` of `dataset_profile.py`: only active when the column-axis
name contains "country" case-insensitively; returns the (unresolved,
resolved-ISO) pair. -/
def check_domain (env : Env) (ds : Table) : List String × List String :=
  if py_in "country" ds.colAxisName.toLower then domain_scan env (ds.cols.map Column.name)
  else ([], [])

/-- The `REGION_CODE` table (UN M49 region codes to continent names), in
source order — which happens to be alphabetical in the names, so the list
built in code order coincides with Python's `sorted(regions)`. -/
def REGION_CODE : List (ℕ × String) :=
  [(2, "Africa"), (19, "Americas"), (142, "Asia"), (150, "Europe"), (9, "Oceania")]

/-- `check_regions` of `dataset_profile.py`: collect the region buckets
touched by some resolved ISO code; all five give ["Welt"], none (or no
resolved codes at all) give ["N/A"], otherwise the sorted bucket names. -/
def check_regions (env : Env) (iso_list : List String) : List String :=
  if iso_list ≠ [] then
    if ((REGION_CODE.filter (fun cc => iso_list.any (fun iso => env.inRegion cc.1 iso))).map
        Prod.snd).length = 5 then ["Welt"]
    else if (REGION_CODE.filter (fun cc => iso_list.any (fun iso => env.inRegion cc.1 iso))).map
        Prod.snd = [] then ["N/A"]
    else (REGION_CODE.filter (fun cc => iso_list.any (fun iso => env.inRegion cc.1 iso))).map
        Prod.snd
  else ["N/A"]

/-- The `INTERVAL` frequency-code table of `dataset_profile.py`. -/
def INTERVAL : String → Option String := fun c =>
  if c = "AS-JAN" then some "Annual"
  else if c = "MS" then some "Monthly"
  else if c = "W-FRI" then some "Weekly"
  else none

/-- `check_interval` of `dataset_profile.py`: on a temporal index, map the
inferred frequency code through `INTERVAL`; an unrecognized or absent code
gives "sporadisch"; fewer than three index entries make `pd.infer_freq`
raise `ValueError`, caught so the level stays the initial empty string; a
non-temporal index gives "N/A". -/
def check_interval (env : Env) (ds : Table) : String :=
  if ds.isDatetime then
    if ds.index.length < 3 then ""
    else
      match env.inferFreq ds.index with
      | some code =>
          match INTERVAL code with
          | some label => label
          | none => "sporadisch"
      | none => "sporadisch"
  else "N/A"

/-- Minimum of a list of dates (`index.min()`), `none` when empty (`NaT`). -/
def list_min : List ℤ → Option ℤ
  | [] => none
  | x :: xs => some (xs.foldl min x)

/-- Maximum of a list of dates (`index.max()`), `none` when empty (`NaT`). -/
def list_max : List ℤ → Option ℤ
  | [] => none
  | x :: xs => some (xs.foldl max x)

/-- `get_time_range_ds` of `dataset_profile.py`: on a temporal index, the
[min, max] of the index labels of rows with at least one present value
(`dropna(how='all')`); an empty pair-list on a non-temporal index. -/
def get_time_range_ds (ds : Table) : List (Option ℤ) :=
  if ds.isDatetime then
    [list_min (((List.range ds.index.length).filter
        (fun i => ds.cols.any (fun c => !(decide (c.cells.getD i Cell.nan = Cell.nan))))).map
        (fun i => ds.index.getD i 0)),
     list_max (((List.range ds.index.length).filter
        (fun i => ds.cols.any (fun c => !(decide (c.cells.getD i Cell.nan = Cell.nan))))).map
        (fun i => ds.index.getD i 0))]
  else []

/-- `get_memory_size` of `dataset_profile.py`: raw byte count below one
kilobyte, else kilobytes. -/
def get_memory_size (env : Env) (ds : Table) : ℚ :=
  if env.memoryBytes ds < 1024 then env.memoryBytes ds else env.memoryBytes ds / 1024

/-- The numeric, non-missing cell values of the table (the
`ds_as_list_without_na` array of `get_unique_values_pct`). -/
def numeric_cell_values (ds : Table) : List ℚ :=
  (list_of_numbers_in_ds ds).filterMap toNumericOpt

/-- `get_unique_values_pct` of `dataset_profile.py`: distinct non-missing
numeric values over all non-missing numeric values, times 100; `None` when
there are no non-missing numeric values (and, per the truthiness guard
`if unique_vals_percent:`, when the ratio is zero — which cannot happen for
a nonempty value list). -/
def get_unique_values_pct (ds : Table) : Option ℚ :=
  if 0 < (numeric_cell_values ds).length then
    if (((numeric_cell_values ds).dedup.length : ℚ) / ((numeric_cell_values ds).length : ℚ)) ≠ 0
    then some ((((numeric_cell_values ds).dedup.length : ℚ)
        / ((numeric_cell_values ds).length : ℚ)) * 100)
    else none
  else none

/-- `ds.isna().all().sum()`: the number of columns whose cells are all
missing (vacuously all of them when the table has no rows, as in pandas). -/
def count_empty_columns (ds : Table) : ℕ :=
  ds.cols.countP (fun c => c.cells.all (fun x => decide (x = Cell.nan)))

/-- `check_delay_upload` of `dataset_profile.py`: "N/A" without a creation
year or without rows; otherwise compare the creation year with the year of
the latest index date and report the month count between them
(`pd.date_range(..., freq='M')`), signed "+" when the data runs past the
creation year and "-" when it stops before it.  (The inner `none` branch is
unreachable: a positive row count has a maximal index label.) -/
def check_delay_upload (env : Env) (ds : Table) (ds_md : Metadata) : String :=
  match ds_md.erstellungsdatum with
  | none => "N/A"
  | some y =>
      if 0 < ds.index.length then
        match list_max ds.index with
        | some last =>
            if y < env.year last then
              "+" ++ toString (env.monthsBetween (env.yearDate y) last)
            else if env.year last = y then
              toString (env.monthsBetween last (env.yearDate y))
            else
              "-" ++ toString (env.monthsBetween last (env.yearDate y))
        | none => "N/A"
      else "N/A"

/-- `dc.idxmin()` paired with `dc.min()` over the coerced series: the first
index label attaining the minimal non-missing value; `none` when every
value is missing (the profile then shows an empty string instead). -/
def idx_min_entry (dc : Series) : Option (ℤ × ℚ) :=
  match (dc.index.zip (dc.cells.map toNumericOpt)).filterMap
      (fun p => p.2.map (fun q => (p.1, q))) with
  | [] => none
  | p :: ps => some (ps.foldl (fun best c => if c.2 < best.2 then c else best) p)

/-- `dc.idxmax()` paired with `dc.max()`, first label of the maximum. -/
def idx_max_entry (dc : Series) : Option (ℤ × ℚ) :=
  match (dc.index.zip (dc.cells.map toNumericOpt)).filterMap
      (fun p => p.2.map (fun q => (p.1, q))) with
  | [] => none
  | p :: ps => some (ps.foldl (fun best c => if best.2 < c.2 then c else best) p)

/-- The "Datenpunkte vorhanden für" entry of the column profile: apply the
interval detector to the present dates of the coerced series, with the step
chosen from the inferred frequency exactly as in the source (`AS-JAN` adds
a year, `MS` a month, anything else a week) and the truthiness of the
inferred code as the loop guard. -/
def series_intervals (env : Env) (dc : Series) : List (ℤ × ℤ) :=
  check_is_consecutive
    (match env.inferFreq dc.index with
      | some "AS-JAN" => env.addYear
      | some "MS" => env.addMonth
      | _ => env.addWeek)
    (env.inferFreq dc.index).isSome
    ((dc.index.zip (dc.cells.map toNumericOpt)).filterMap
      (fun p => if p.2.isSome then some p.1 else none))

/-- The heterogeneous result cell of a profile report row. -/
inductive PValue
  | s (v : String)
  | n (v : ℕ)
  | q (v : ℚ)
  | oq (v : Option ℚ)
  | strs (v : List String)
  | ostrs (v : Option (List String))
  | dates (v : List (Option ℤ))
  | counts (v : List (String × ℕ))
  | aggs (v : List AggEntry)
  | entry (v : Option (ℤ × ℚ))
  | ivals (v : List (ℤ × ℤ))

/-- The `.items()` view of the dtype-count dictionary, in its insertion
order NUM, STRING, CONST. -/
def dtypes_items (d : DTypes) : List (String × ℕ) :=
  [("NUM", d.num), ("STRING", d.string), ("CONST", d.const)]

/-- `describe_ds_as_dataframe` of `dataset_profile.py`: the dataset-level
report as the ordered list of (criterion, result) rows, in the fixed order
of the `data` list of the source.  The geographic scope computed once at
the top of the source function is referenced by both the scope row and the
aggregation row. -/
def describe_ds_as_dataframe (env : Env) (ds : Table) (ds_md : Metadata) :
    List (String × PValue) :=
  [("Domain", PValue.s ds.colAxisName),
   ("geographischer Geltungsbereich",
     PValue.strs (check_regions env (check_domain env ds).2)),
   ("Zeitraum [von, bis]", PValue.dates (get_time_range_ds ds)),
   ("Zeitliche Granularität", PValue.s (check_interval env ds)),
   ("Anzahl der Zeilen", PValue.n ds.index.length),
   ("Anzahl der Spalten", PValue.n ds.cols.length),
   ("Datengröße in Kilobytes", PValue.q (get_memory_size env ds)),
   ("Distinkte Werte (Prozent)", PValue.oq (get_unique_values_pct ds)),
   ("Fehlende Werte (Prozent)", PValue.oq (get_null_values_pct ds)),
   ("Spalten ohne Werte (n)", PValue.n (count_empty_columns ds)),
   ("Datentypen", PValue.counts (dtypes_items (get_data_types ds))),
   ("Spalten mit exakt selben Werten", PValue.ostrs (get_duplicated_columns ds)),
   ("Überprüfung Aggregationsspalte",
     PValue.aggs (check_aggregation ds (check_regions env (check_domain env ds).2))),
   ("Open Data Schema", PValue.n (fivestar_opendata ds_md)),
   ("Überprüfung des Wertebereichs", PValue.strs (check_units ds ds_md)),
   ("Herausgeber-Kategorie", PValue.s (categorize_source ds_md)),
   ("Domain-Check", PValue.strs (check_domain env ds).1),
   ("Verzögerung Veröffentlichung in Monaten",
     PValue.s (check_delay_upload env ds ds_md))]

/-- `describe_dc_as_dataframe` of `column_profile.py`: the column-level
report as the ordered list of (criterion, result) rows of the `dc_stats`
list of the source. -/
def describe_dc_as_dataframe (env : Env) (dc : Series) (ds_md : Metadata) :
    List (String × PValue) :=
  [("Metadaten spezifisch für Spalte", PValue.s (column_metadata dc.name ds_md)),
   ("Anzahl an Zeilen", PValue.n dc.cells.length),
   ("Anzahl an fehlenden Werten", PValue.n (null_values_count dc)),
   ("Fehlende Werte (Prozent)", PValue.q (missing_pct dc)),
   ("Distinkte Werte (Prozent)", PValue.q (unique_pct dc)),
   ("Konstanz (Prozent)", PValue.oq (constancy_pct dc)),
   ("Mittelwert", PValue.oq (pyMean (dc.cells.map toNumericOpt))),
   ("Minimumwert (Jahr, Wert)", PValue.entry (idx_min_entry dc)),
   ("Maximumwert (Jahr, Wert)", PValue.entry (idx_max_entry dc)),
   ("Datenpunkte vorhanden für", PValue.ivals (series_intervals env dc))]

/-- C8: profiling is deterministic and its presentation order is fixed —
the dataset- and column-level profilers are plain functions of the table,
the metadata and the fixed external services, so two calls on identical
input produce identical reports, and the criterion-name column is the same
constant list for every input. -/
theorem profiling_deterministic (env : Env) (ds : Table) (ds_md : Metadata) (dc : Series) :
    describe_ds_as_dataframe env ds ds_md = describe_ds_as_dataframe env ds ds_md ∧
    (describe_ds_as_dataframe env ds ds_md).map Prod.fst =
      ["Domain", "geographischer Geltungsbereich", "Zeitraum [von, bis]",
       "Zeitliche Granularität", "Anzahl der Zeilen", "Anzahl der Spalten",
       "Datengröße in Kilobytes", "Distinkte Werte (Prozent)",
       "Fehlende Werte (Prozent)", "Spalten ohne Werte (n)", "Datentypen",
       "Spalten mit exakt selben Werten", "Überprüfung Aggregationsspalte",
       "Open Data Schema", "Überprüfung des Wertebereichs",
       "Herausgeber-Kategorie", "Domain-Check",
       "Verzögerung Veröffentlichung in Monaten"] ∧
    describe_dc_as_dataframe env dc ds_md = describe_dc_as_dataframe env dc ds_md ∧
    (describe_dc_as_dataframe env dc ds_md).map Prod.fst =
      ["Metadaten spezifisch für Spalte", "Anzahl an Zeilen",
       "Anzahl an fehlenden Werten", "Fehlende Werte (Prozent)",
       "Distinkte Werte (Prozent)", "Konstanz (Prozent)", "Mittelwert",
       "Minimumwert (Jahr, Wert)", "Maximumwert (Jahr, Wert)",
       "Datenpunkte vorhanden für"] :=
  ⟨rfl, rfl, rfl, rfl⟩
